import Mathlib

/-!
Shallow embedding of VMDIRAC's VirtualMachineManagerHandler
(src/VMDIRAC/WorkloadManagementSystem/Service/VirtualMachineManagerHandler.py).

The handler talks to three external collaborators that are not part of this
repository: VirtualMachineDB (the instance store), the cloud endpoint factory
(getVMImageConfig and CloudEndpointFactory.getCEObject), and gLogger / the
thread scheduler.  They are embedded as a pure oracle structure (Env) whose
fields give the result of each collaborator call; the handler functions are
direct translations of the Python control flow.  Every external call made by
the handler is additionally recorded in an event trace (List Event), so that
claims about side effects ("no state-mutating call is made", "the failure is
logged", "recordDBHalt is invoked") can be stated as trace properties.

Python exceptions that the handler itself can raise (the tuple-unpacking
ValueError in createCloudEndpoint when the endpoint descriptor does not split
in exactly two pieces on the double-colon separator, and the unbound local
variable NameError in export_declareInstancesStopping on an empty input list)
are modelled with an Except layer: Except.error is a raised exception,
Except.ok is a normal return.

DIRAC result dictionaries (S_OK / S_ERROR) are modelled by DResult: ok carries
the Value payload, err carries the Message string.  Numeric payloads that the
handler never inspects (load, job counters) are modelled as Int.  VM property
identifiers (VmProperties.VM_RPC_OPERATION, VmProperties.VM_WEB_OPERATION) are
modelled by their names as strings, and a credential set as a list of such
strings.
-/

/-- DIRAC S_OK / S_ERROR result dictionary: ok carries the Value entry,
err carries the Message entry. -/
inductive DResult (α : Type) where
  | ok (value : α)
  | err (message : String)
  deriving DecidableEq

/-- Payload values produced by the handler operations: the unit-like payload
of plain S_OK results, and the Successful / Failed pair returned by
haltInstances (Successful maps instanceID to True, Failed maps instanceID to
the failure message, both in Python-dict insertion order). -/
inductive Value where
  | unit
  | haltRes (successful : List (Int × Bool)) (failed : List (Int × String))
  deriving DecidableEq

/-- Python exceptions the translated code can raise. -/
inductive PyErr where
  | valueError
  | nameError
  deriving DecidableEq

/-- One observable external call made by the handler: reads and writes against
VirtualMachineDB, cloud-endpoint construction, the backend stop call, logging,
and periodic-task registration. -/
inductive Event where
  | getUniqueID (instanceID : Int)
  | getEndpointFromInstance (uniqueID : String)
  | getVMImageConfig (site : String) (endpoint : String)
  | getCEObject
  | getPublicIpFromInstance (uniqueID : String)
  | getInstanceStatus (instanceID : Int)
  | getInstanceID (uniqueID : String)
  | declareStalledInstances
  | recordDBHalt (instanceID : Int) (load : Int)
  | declareInstanceStopping (instanceID : Int)
  | declareInstanceHaltingDB (uniqueID : String) (load : Int)
  | declareInstanceRunningDB (uniqueID : String) (publicIP : String) (privateIP : String)
  | instanceIDHeartBeatDB (uniqueID : String)
  | stopVM (uniqueID : String) (publicIP : String)
  | logInfo (msg : String)
  | logError (msg : String)
  | addPeriodicTask (seconds : Int)
  deriving DecidableEq

/-- True for the events that mutate state outside the handler: status writes
to VirtualMachineDB and the backend stop command. -/
def Event.isMutation : Event → Bool
  | .recordDBHalt _ _ => true
  | .declareInstanceStopping _ => true
  | .declareInstanceHaltingDB _ _ => true
  | .declareInstanceRunningDB _ _ _ => true
  | .instanceIDHeartBeatDB _ => true
  | .stopVM _ _ => true
  | _ => false

/-- True for gLogger calls. -/
def Event.isLog : Event → Bool
  | .logInfo _ => true
  | .logError _ => true
  | _ => false

/-- Opaque cloud-endpoint parameter dictionary produced by getVMImageConfig. -/
abbrev CEParams := String

/-- A cloud endpoint object as produced by CloudEndpointFactory.getCEObject:
the only method the handler uses is stopVM. -/
structure Endpoint where
  stopVM : String → String → DResult Value

/-- Pure oracle for the external collaborators (VirtualMachineDB, the cloud
endpoint factory, the DB connection flag).  Each field gives the result that
the corresponding collaborator call returns. -/
structure Env where
  connected : Bool
  getUniqueID : Int → DResult String
  getEndpointFromInstance : String → DResult String
  getVMImageConfig : String → String → DResult CEParams
  getCEObject : CEParams → DResult Endpoint
  getPublicIpFromInstance : String → DResult String
  getInstanceStatus : Int → DResult String
  getInstanceID : String → DResult Int
  declareStalledInstances : DResult (List Int)
  recordDBHalt : Int → Int → DResult Value
  declareInstanceStopping : Int → DResult Value
  declareInstanceHalting : String → Int → DResult Value
  declareInstanceRunning : String → String → String → DResult Value
  instanceIDHeartBeat : String → Int → Int → Int → Int → Int → DResult Value

/-- Key membership in a Python dict modelled as an insertion-ordered
association list. -/
def hasKey {β : Type} (d : List (Int × β)) (k : Int) : Bool :=
  d.any fun p => p.1 == k

/-- Python dict item assignment d[k] = v: overwrite in place when the key is
present, append otherwise. -/
def dictSet {β : Type} (d : List (Int × β)) (k : Int) (v : β) : List (Int × β) :=
  if hasKey d k then d.map fun p => if p.1 == k then (k, v) else p
  else d ++ [(k, v)]

/-- Python str.split with separator double-colon, on character lists:
splitOnColons cs acc splits cs, with acc the reversed chars of the current
piece. -/
def splitOnColons : List Char → List Char → List (List Char)
  | ':' :: ':' :: rest, acc => acc.reverse :: splitOnColons rest []
  | c :: rest, acc => splitOnColons rest (c :: acc)
  | [], acc => [acc.reverse]

/-- Python value.split on the double-colon separator, as used on the
site-endpoint descriptor in createCloudEndpoint. -/
def pySplit2 (s : String) : List String :=
  (splitOnColons s.data []).map fun cs => String.mk cs

/-- Python substring test (pat in s). -/
def hasSubstring (pat : List Char) : List Char → Bool
  | [] => pat.isEmpty
  | c :: rest => pat.isPrefixOf (c :: rest) || hasSubstring pat rest

/-- Python substring test on strings. -/
def strIn (pat s : String) : Bool :=
  hasSubstring pat.data s.data

/-- The gLogger.error call made by the private __logResult helper: logs
methodName followed by the message when the result is an error, nothing
otherwise. -/
def logResult (methodName : String) (r : DResult Value) : List Event :=
  match r with
  | .err m => [.logError (methodName ++ ": " ++ m)]
  | .ok _ => []

/-- Translation of module-level createCloudEndpoint: resolve the
site-endpoint descriptor from the DB, split it on the double-colon separator
(the Python two-variable unpacking raises ValueError unless the split yields
exactly two pieces), fetch the image configuration and build the endpoint
object.  Returns the trace of calls made and either a raised exception or the
DIRAC result. -/
def createCloudEndpoint (env : Env) (uniqueID : String) :
    List Event × Except PyErr (DResult Endpoint) :=
  match env.getEndpointFromInstance uniqueID with
  | .err m => ([.getEndpointFromInstance uniqueID], .ok (.err m))
  | .ok v =>
    match pySplit2 v with
    | [site, endpoint] =>
      match env.getVMImageConfig site endpoint with
      | .err m =>
        ([.getEndpointFromInstance uniqueID, .getVMImageConfig site endpoint], .ok (.err m))
      | .ok ceParams =>
        ([.getEndpointFromInstance uniqueID, .getVMImageConfig site endpoint, .getCEObject],
         .ok (env.getCEObject ceParams))
    | _ => ([.getEndpointFromInstance uniqueID], .error .valueError)

/-- The loop of module-level haltInstances, carrying the successful and
failed accumulator dicts.  Per instance: resolve the unique ID (on error log
and continue), build the cloud endpoint (on error log and continue), resolve
the public IP (on error log and continue), then issue stopVM; on success call
recordDBHalt and record the instance in successful, on failure record the
backend message in failed.  The final return is S_OK of both dicts. -/
def haltLoop (env : Env) : List Int → List (Int × Bool) → List (Int × String) →
    List Event × Except PyErr (DResult Value)
  | [], successful, failed => ([], .ok (.ok (.haltRes successful failed)))
  | instanceID :: rest, successful, failed =>
    match env.getUniqueID instanceID with
    | .err m =>
      (Event.getUniqueID instanceID ::
         Event.logError ("haltInstances: on getUniqueID call: " ++ m) ::
         (haltLoop env rest successful failed).1,
       (haltLoop env rest successful failed).2)
    | .ok uniqueID =>
      match (createCloudEndpoint env uniqueID).2 with
      | .error e =>
        (Event.getUniqueID instanceID :: (createCloudEndpoint env uniqueID).1, .error e)
      | .ok (.err m) =>
        (Event.getUniqueID instanceID :: (createCloudEndpoint env uniqueID).1 ++
           (Event.logError ("haltInstances: on createCloudEndpoint call: " ++ m) ::
            (haltLoop env rest successful failed).1),
         (haltLoop env rest successful failed).2)
      | .ok (.ok endpoint) =>
        match env.getPublicIpFromInstance uniqueID with
        | .err _ =>
          (Event.getUniqueID instanceID :: (createCloudEndpoint env uniqueID).1 ++
             (Event.getPublicIpFromInstance uniqueID ::
              Event.logError "haltInstances: can not get publicIP" ::
              (haltLoop env rest successful failed).1),
           (haltLoop env rest successful failed).2)
        | .ok publicIP =>
          match endpoint.stopVM uniqueID publicIP with
          | .ok _ =>
            (Event.getUniqueID instanceID :: (createCloudEndpoint env uniqueID).1 ++
               (Event.getPublicIpFromInstance uniqueID ::
                Event.stopVM uniqueID publicIP ::
                Event.recordDBHalt instanceID 0 ::
                (haltLoop env rest (dictSet successful instanceID true) failed).1),
             (haltLoop env rest (dictSet successful instanceID true) failed).2)
          | .err m =>
            (Event.getUniqueID instanceID :: (createCloudEndpoint env uniqueID).1 ++
               (Event.getPublicIpFromInstance uniqueID ::
                Event.stopVM uniqueID publicIP ::
                (haltLoop env rest successful (dictSet failed instanceID m)).1),
             (haltLoop env rest successful (dictSet failed instanceID m)).2)

/-- Translation of module-level haltInstances: run the loop with empty
Successful and Failed dicts.  The int(instanceID) coercion at the top of the
Python loop is the identity here because instance identifiers are already
modelled as integers. -/
def haltInstances (env : Env) (vmList : List Int) :
    List Event × Except PyErr (DResult Value) :=
  haltLoop env vmList [] []

/-- Collaborator contract on the site-endpoint descriptor stored by the DB:
it splits into exactly a site and an endpoint on the double-colon separator
(spec section 3, siteEndpoint is a site, endpoint pair).  Under this contract
the two-variable unpacking in createCloudEndpoint cannot raise. -/
def WellFormedEndpoints (env : Env) : Prop :=
  ∀ u v, env.getEndpointFromInstance u = .ok v → ∃ site ep, pySplit2 v = [site, ep]

/-- Classification of what one haltInstances iteration does with one
instance, determined by the oracle alone: fail resolving the unique ID, fail
building the endpoint (as DIRAC error or as raised exception), fail resolving
the public IP, or reach the backend stop call and succeed or fail there. -/
inductive StepOutcome where
  | badUniqueID (m : String)
  | endpointRaised (e : PyErr)
  | badEndpoint (m : String)
  | badPublicIP (m : String)
  | stopOK
  | stopFailed (m : String)
  deriving DecidableEq

/-- The per-instance outcome of the haltInstances loop body. -/
def haltStep (env : Env) (instanceID : Int) : StepOutcome :=
  match env.getUniqueID instanceID with
  | .err m => .badUniqueID m
  | .ok uniqueID =>
    match (createCloudEndpoint env uniqueID).2 with
    | .error e => .endpointRaised e
    | .ok (.err m) => .badEndpoint m
    | .ok (.ok endpoint) =>
      match env.getPublicIpFromInstance uniqueID with
      | .err m => .badPublicIP m
      | .ok publicIP =>
        match endpoint.stopVM uniqueID publicIP with
        | .ok _ => .stopOK
        | .err m => .stopFailed m

/-- The events one haltInstances iteration emits for one instance. -/
def stepTrace (env : Env) (instanceID : Int) : List Event :=
  match env.getUniqueID instanceID with
  | .err m =>
    [.getUniqueID instanceID, .logError ("haltInstances: on getUniqueID call: " ++ m)]
  | .ok uniqueID =>
    match (createCloudEndpoint env uniqueID).2 with
    | .error _ => Event.getUniqueID instanceID :: (createCloudEndpoint env uniqueID).1
    | .ok (.err m) =>
      Event.getUniqueID instanceID :: (createCloudEndpoint env uniqueID).1 ++
        [Event.logError ("haltInstances: on createCloudEndpoint call: " ++ m)]
    | .ok (.ok endpoint) =>
      match env.getPublicIpFromInstance uniqueID with
      | .err _ =>
        Event.getUniqueID instanceID :: (createCloudEndpoint env uniqueID).1 ++
          [Event.getPublicIpFromInstance uniqueID,
           Event.logError "haltInstances: can not get publicIP"]
      | .ok publicIP =>
        match endpoint.stopVM uniqueID publicIP with
        | .ok _ =>
          Event.getUniqueID instanceID :: (createCloudEndpoint env uniqueID).1 ++
            [Event.getPublicIpFromInstance uniqueID, Event.stopVM uniqueID publicIP,
             Event.recordDBHalt instanceID 0]
        | .err _ =>
          Event.getUniqueID instanceID :: (createCloudEndpoint env uniqueID).1 ++
            [Event.getPublicIpFromInstance uniqueID, Event.stopVM uniqueID publicIP]

/-- The Successful dict haltInstances builds, expressed per instance. -/
def successOf (env : Env) (l : List Int) : List (Int × Bool) :=
  (l.filter fun i => decide (haltStep env i = .stopOK)).map fun i => (i, true)

/-- The Failed dict haltInstances builds, expressed per instance. -/
def failOf (env : Env) (l : List Int) : List (Int × String) :=
  l.filterMap fun i =>
    match haltStep env i with
    | .stopFailed m => some (i, m)
    | _ => none

/-- Translation of module-level checkStalledInstances: ask the DB for the
stalled list; on failure return a bare S_ERROR (note: the Python error branch
performs no logging); on success hand the list to haltInstances. -/
def checkStalledInstances (env : Env) : List Event × Except PyErr (DResult Value) :=
  match env.declareStalledInstances with
  | .err _ => ([.declareStalledInstances], .ok (.err ""))
  | .ok stallingList =>
    (Event.declareStalledInstances :: (haltInstances env stallingList).1,
     (haltInstances env stallingList).2)

/-- Translation of initializeVirtualMachineManagerHandler: construct the DB,
run checkStalledInstances once (its DIRAC result is discarded, but a raised
exception would propagate), then, if the DB is connected, register
checkStalledInstances as a periodic task every 60 * 15 seconds and return
S_OK; otherwise return S_ERROR. -/
def initializeVirtualMachineManagerHandler (env : Env) :
    List Event × Except PyErr (DResult Value) :=
  match (checkStalledInstances env).2 with
  | .error e => ((checkStalledInstances env).1, .error e)
  | .ok _ =>
    if env.connected then
      ((checkStalledInstances env).1 ++ [Event.addPeriodicTask (60 * 15)], .ok (.ok .unit))
    else
      ((checkStalledInstances env).1, .ok (.err ""))

/-- Translation of export_declareInstanceRunning: log the unique ID, check
the VM_RPC_OPERATION property (returning the Unauthorized S_ERROR when it is
missing), take the caller's public IP from the transport layer, log it, call
declareInstanceRunning on the DB and return its result (logging it when it is
an error).  remoteAddress models self.getRemoteAddress()[0]. -/
def export_declareInstanceRunning (env : Env) (props : List String)
    (uniqueID privateIP remoteAddress : String) :
    List Event × Except PyErr (DResult Value) :=
  if props.contains "VM_RPC_OPERATION" = false then
    ([.logInfo ("Declare instance Running uniqueID: " ++ uniqueID)],
     .ok (.err "Unauthorized declareInstanceRunning RPC"))
  else
    (Event.logInfo ("Declare instance Running uniqueID: " ++ uniqueID) ::
       Event.logInfo ("Declare instance Running publicIP: " ++ remoteAddress) ::
       Event.declareInstanceRunningDB uniqueID remoteAddress privateIP ::
       logResult "declareInstanceRunning" (env.declareInstanceRunning uniqueID remoteAddress privateIP),
     .ok (env.declareInstanceRunning uniqueID remoteAddress privateIP))

/-- Translation of export_instanceIDHeartBeat: check the VM_RPC_OPERATION
property first (returning the Unauthorized S_ERROR when it is missing),
coerce uptime to an integer treating a ValueError as zero (uptime here is
some n when the Python int() call would yield n, none when it would raise),
then call instanceIDHeartBeat on the DB and return its result. -/
def export_instanceIDHeartBeat (env : Env) (props : List String) (uniqueID : String)
    (load jobs transferredFiles transferredBytes : Int) (uptime : Option Int) :
    List Event × Except PyErr (DResult Value) :=
  if props.contains "VM_RPC_OPERATION" = false then
    ([], .ok (.err "Unauthorized declareInstanceIDHeartBeat RPC"))
  else
    (Event.instanceIDHeartBeatDB uniqueID ::
       logResult "instanceIDHeartBeat"
         (env.instanceIDHeartBeat uniqueID load jobs transferredFiles transferredBytes
           (uptime.getD 0)),
     .ok (env.instanceIDHeartBeat uniqueID load jobs transferredFiles transferredBytes
       (uptime.getD 0)))

/-- The tail of export_declareInstanceHalting after the status-change call:
resolve the VMDIRAC instance ID from the unique ID (returning the error when
that fails) and hand the singleton halting list to haltInstances. -/
def declareInstanceHaltingTail (env : Env) (uniqueID : String) :
    List Event × Except PyErr (DResult Value) :=
  match env.getInstanceID uniqueID with
  | .err m =>
    ([.getInstanceID uniqueID, .logError ("declareInstanceHalting: " ++ m)], .ok (.err m))
  | .ok instanceID =>
    (Event.getInstanceID uniqueID :: (haltInstances env [instanceID]).1,
     (haltInstances env [instanceID]).2)

/-- Translation of export_declareInstanceHalting: check the VM_RPC_OPERATION
property, resolve the endpoint descriptor (returning the error when that
fails), call declareInstanceHalting on the DB; when that fails with a message
not containing the substring Halted-arrow the error is logged and returned,
but when the message does contain it the failure is tolerated (logged as the
bad-transition info message) and processing continues as on success; finally
resolve the instance ID and dispatch the halt via haltInstances. -/
def export_declareInstanceHalting (env : Env) (props : List String)
    (uniqueID : String) (load : Int) : List Event × Except PyErr (DResult Value) :=
  if props.contains "VM_RPC_OPERATION" = false then
    ([], .ok (.err "Unauthorized declareInstanceHalting RPC"))
  else
    match env.getEndpointFromInstance uniqueID with
    | .err m =>
      ([.getEndpointFromInstance uniqueID, .logError ("declareInstanceHalting: " ++ m)],
       .ok (.err m))
    | .ok _ =>
      match env.declareInstanceHalting uniqueID load with
      | .err m =>
        if strIn "Halted ->" m = false then
          ([.getEndpointFromInstance uniqueID, .declareInstanceHaltingDB uniqueID load,
            .logError ("declareInstanceHalting on change status: : " ++ m)],
           .ok (.err m))
        else
          (Event.getEndpointFromInstance uniqueID ::
             Event.declareInstanceHaltingDB uniqueID load ::
             Event.logInfo "Bad transition from Halted to something, will assume Halted" ::
             (declareInstanceHaltingTail env uniqueID).1,
           (declareInstanceHaltingTail env uniqueID).2)
      | .ok _ =>
        (Event.getEndpointFromInstance uniqueID ::
           Event.declareInstanceHaltingDB uniqueID load ::
           (declareInstanceHaltingTail env uniqueID).1,
         (declareInstanceHaltingTail env uniqueID).2)

/-- What one iteration of the export_declareInstancesStopping loop does:
return from the whole method early with a result, raise an exception, or set
the loop-local result variable and continue. -/
inductive StepRes where
  | earlyReturn (r : DResult Value)
  | raised (e : PyErr)
  | next (r : DResult Value)
  deriving DecidableEq

/-- The body of the export_declareInstancesStopping loop for one instance:
log, fetch the instance status (an error is logged and returned from the
whole method immediately); a Stalled instance resolves its unique ID and
endpoint (errors again returned immediately) and is routed through
export_declareInstanceHalting; a New instance is recorded halted via
recordDBHalt; any other status gets the declareInstanceStopping transition.
In the last two cases and the Stalled case the obtained result only sets the
loop variable. -/
def stoppingStep (env : Env) (props : List String) (instanceID : Int) :
    List Event × StepRes :=
  match env.getInstanceStatus instanceID with
  | .err m =>
    ([.logInfo ("Stopping DIRAC instanceID: " ++ toString instanceID),
      .getInstanceStatus instanceID,
      .logError ("declareInstancesStopping on getInstanceStatus call: : " ++ m)],
     .earlyReturn (.err m))
  | .ok state =>
    if state = "Stalled" then
      match env.getUniqueID instanceID with
      | .err m =>
        ([.logInfo ("Stopping DIRAC instanceID: " ++ toString instanceID),
          .getInstanceStatus instanceID,
          .logInfo ("Stopping DIRAC instanceID: " ++ toString instanceID ++
            ", current state " ++ state),
          .getUniqueID instanceID,
          .logError ("declareInstancesStopping on getUniqueID call: : " ++ m)],
         .earlyReturn (.err m))
      | .ok uniqueID =>
        match env.getEndpointFromInstance uniqueID with
        | .err m =>
          ([.logInfo ("Stopping DIRAC instanceID: " ++ toString instanceID),
            .getInstanceStatus instanceID,
            .logInfo ("Stopping DIRAC instanceID: " ++ toString instanceID ++
              ", current state " ++ state),
            .getUniqueID instanceID, .getEndpointFromInstance uniqueID,
            .logError ("declareInstancesStopping on getEndpointFromInstance call: : " ++ m)],
           .earlyReturn (.err m))
        | .ok _ =>
          (Event.logInfo ("Stopping DIRAC instanceID: " ++ toString instanceID) ::
             Event.getInstanceStatus instanceID ::
             Event.logInfo ("Stopping DIRAC instanceID: " ++ toString instanceID ++
               ", current state " ++ state) ::
             Event.getUniqueID instanceID :: Event.getEndpointFromInstance uniqueID ::
             (export_declareInstanceHalting env props uniqueID 0).1,
           match (export_declareInstanceHalting env props uniqueID 0).2 with
           | .error e => .raised e
           | .ok r => .next r)
    else if state = "New" then
      (Event.logInfo ("Stopping DIRAC instanceID: " ++ toString instanceID) ::
         Event.getInstanceStatus instanceID ::
         Event.logInfo ("Stopping DIRAC instanceID: " ++ toString instanceID ++
           ", current state " ++ state) ::
         Event.recordDBHalt instanceID 0 ::
         logResult "declareInstanceHalted" (env.recordDBHalt instanceID 0),
       .next (env.recordDBHalt instanceID 0))
    else
      (Event.logInfo ("Stopping DIRAC instanceID: " ++ toString instanceID) ::
         Event.getInstanceStatus instanceID ::
         Event.logInfo ("Stopping DIRAC instanceID: " ++ toString instanceID ++
           ", current state " ++ state) ::
         Event.declareInstanceStopping instanceID ::
         logResult "declareInstancesStopping: on declareInstanceStopping call: "
           (env.declareInstanceStopping instanceID),
       .next (env.declareInstanceStopping instanceID))

/-- The export_declareInstancesStopping loop: acc is the current value of the
loop-local result variable (none before the first iteration).  When the list
is exhausted the method returns result, which raises the unbound-local
NameError when no iteration ever ran. -/
def stoppingLoop (env : Env) (props : List String) :
    List Int → Option (DResult Value) → List Event × Except PyErr (DResult Value)
  | [], none => ([], .error .nameError)
  | [], some r => ([], .ok r)
  | instanceID :: rest, _acc =>
    match (stoppingStep env props instanceID).2 with
    | .earlyReturn r => ((stoppingStep env props instanceID).1, .ok r)
    | .raised e => ((stoppingStep env props instanceID).1, .error e)
    | .next r =>
      ((stoppingStep env props instanceID).1 ++ (stoppingLoop env props rest (some r)).1,
       (stoppingLoop env props rest (some r)).2)

/-- Translation of export_declareInstancesStopping: check the
VM_WEB_OPERATION property (returning the Unauthorized S_ERROR when it is
missing), then run the per-instance loop and return the value of its result
variable. -/
def export_declareInstancesStopping (env : Env) (props : List String)
    (instanceIdList : List Int) : List Event × Except PyErr (DResult Value) :=
  if props.contains "VM_WEB_OPERATION" = false then
    ([], .ok (.err "Unauthorized VM Stopping"))
  else
    stoppingLoop env props instanceIdList none

/-- Modelled from the spec: VirtualMachineDB (the instance store, not part of
this repository) rejects a forbidden status transition with an error message
carrying the current and the requested status separated by an arrow, so the
rejection of a transition out of Halted carries the substring Halted-arrow
that export_declareInstanceHalting tests for. -/
def invalidTransitionMessage (current target : String) : String :=
  current ++ " -> " ++ target

/-- A cloud endpoint whose stop command always succeeds (concrete test
collaborator). -/
def okEndpoint : Endpoint :=
  { stopVM := fun _ _ => .ok .unit }

/-- A cloud endpoint whose stop command always fails (concrete test
collaborator). -/
def failStopEndpoint : Endpoint :=
  { stopVM := fun _ _ => .err "backend refused" }

/-- A cloud endpoint that stops the machine with backend handle vm-1 and
fails for every other handle (concrete test collaborator). -/
def mixedEndpoint : Endpoint :=
  { stopVM := fun u _ => if u == "vm-1" then .ok .unit else .err "backend refused" }

/-- A concrete oracle on which every collaborator call succeeds. -/
def envBase : Env :=
  { connected := true
    getUniqueID := fun i => .ok ("vm-" ++ toString i)
    getEndpointFromInstance := fun _ => .ok "LCG.Site.org::ce.site.org"
    getVMImageConfig := fun _ _ => .ok "ceParams"
    getCEObject := fun _ => .ok okEndpoint
    getPublicIpFromInstance := fun _ => .ok "192.0.2.7"
    getInstanceStatus := fun _ => .ok "Running"
    getInstanceID := fun _ => .ok 1
    declareStalledInstances := .ok [1]
    recordDBHalt := fun _ _ => .ok .unit
    declareInstanceStopping := fun _ => .ok .unit
    declareInstanceHalting := fun _ _ => .ok .unit
    declareInstanceRunning := fun _ _ _ => .ok .unit
    instanceIDHeartBeat := fun _ _ _ _ _ _ => .ok .unit }

/-- Oracle on which resolving the backend handle fails for every instance
except number 2. -/
def envC1 : Env :=
  { envBase with getUniqueID := fun i => if i == 2 then .ok "vm-2" else .err "unknown instance" }

/-- Oracle on which every backend stop call fails. -/
def envStopFail : Env :=
  { envBase with getCEObject := fun _ => .ok failStopEndpoint }

/-- Oracle on which the stop call succeeds for instance 1 and fails for
every other instance. -/
def envC3 : Env :=
  { envBase with getCEObject := fun _ => .ok mixedEndpoint }

/-- Oracle on which the stalled-instance query fails. -/
def envStoreDown : Env :=
  { envBase with declareStalledInstances := .err "store unavailable" }

/-- Oracle on which instance 1 is Stalled, instance 2 is New and every other
instance is Running. -/
def envC4 : Env :=
  { envBase with getInstanceStatus := fun i =>
      if i == 1 then .ok "Stalled" else if i == 2 then .ok "New" else .ok "Running" }

/-- Oracle on which the status lookup fails for instance 3 and yields
Running for every other instance. -/
def envC10 : Env :=
  { envBase with getInstanceStatus := fun i =>
      if i == 3 then .err "lookup failed" else .ok "Running" }

/-- Oracle on which the status-change call of declareInstanceHalting is
rejected with the Halted-to-Running invalid-transition message. -/
def envC5 : Env :=
  { envBase with declareInstanceHalting :=
      fun _ _ => DResult.err (invalidTransitionMessage "Halted" "Running") }

lemma createCloudEndpoint_trace (env : Env) (u : String) :
    ∀ e ∈ (createCloudEndpoint env u).1,
      e = Event.getEndpointFromInstance u ∨
      (∃ s ep, e = Event.getVMImageConfig s ep) ∨ e = Event.getCEObject := by
  intro e he
  unfold createCloudEndpoint at he
  split at he
  · simp at he
    exact Or.inl he
  · split at he
    · split at he
      · simp at he
        rcases he with h | h
        · exact Or.inl h
        · exact Or.inr (Or.inl ⟨_, _, h⟩)
      · simp at he
        rcases he with h | h | h
        · exact Or.inl h
        · exact Or.inr (Or.inl ⟨_, _, h⟩)
        · exact Or.inr (Or.inr h)
    · simp at he
      exact Or.inl he

lemma createCloudEndpoint_no_raise (env : Env) (hwf : WellFormedEndpoints env)
    (u : String) : ∃ r, (createCloudEndpoint env u).2 = Except.ok r := by
  cases h1 : env.getEndpointFromInstance u with
  | err m => exact ⟨.err m, by simp [createCloudEndpoint, h1]⟩
  | ok v =>
    obtain ⟨site, ep, hsp⟩ := hwf u v h1
    cases h2 : env.getVMImageConfig site ep with
    | err m => exact ⟨.err m, by simp [createCloudEndpoint, h1, hsp, h2]⟩
    | ok p => exact ⟨env.getCEObject p, by simp [createCloudEndpoint, h1, hsp, h2]⟩

lemma successOf_cons (env : Env) (i : Int) (rest : List Int) :
    successOf env (i :: rest) =
      (if haltStep env i = .stopOK then [(i, true)] else []) ++ successOf env rest := by
  simp only [successOf, List.filter_cons]
  split
  · simp_all [successOf]
  · simp_all [successOf]

lemma failOf_cons (env : Env) (i : Int) (rest : List Int) :
    failOf env (i :: rest) =
      (match haltStep env i with | .stopFailed m => [(i, m)] | _ => []) ++ failOf env rest := by
  simp only [failOf, List.filterMap_cons]
  cases h : haltStep env i <;> simp [failOf]

lemma dictSet_fresh {β : Type} (d : List (Int × β)) (k : Int) (v : β)
    (h : hasKey d k = false) : dictSet d k v = d ++ [(k, v)] := by
  simp [dictSet, h]

lemma hasKey_append_single {β : Type} (d : List (Int × β)) (k j : Int) (v : β) :
    hasKey (d ++ [(k, v)]) j = (hasKey d j || (k == j)) := by
  simp [hasKey, List.any_append]

theorem haltLoop_spec (env : Env) (hwf : WellFormedEndpoints env) :
    ∀ (l : List Int) (S : List (Int × Bool)) (F : List (Int × String)),
      l.Nodup → (∀ i ∈ l, hasKey S i = false) → (∀ i ∈ l, hasKey F i = false) →
      haltLoop env l S F =
        ((l.map (stepTrace env)).flatten,
         .ok (.ok (.haltRes (S ++ successOf env l) (F ++ failOf env l)))) := by
  intro l
  induction l with
  | nil =>
    intro S F _ _ _
    simp [haltLoop, successOf, failOf]
  | cons i rest ih =>
    intro S F hnd hS hF
    have hir : i ∉ rest := (List.nodup_cons.mp hnd).1
    have hndr : rest.Nodup := (List.nodup_cons.mp hnd).2
    have hSr : ∀ j ∈ rest, hasKey S j = false := fun j hj => hS j (List.mem_cons_of_mem _ hj)
    have hFr : ∀ j ∈ rest, hasKey F j = false := fun j hj => hF j (List.mem_cons_of_mem _ hj)
    cases h1 : env.getUniqueID i with
    | err m =>
      have hstep : haltStep env i = .badUniqueID m := by simp [haltStep, h1]
      simp only [haltLoop, h1]
      rw [ih S F hndr hSr hFr]
      simp [stepTrace, h1, successOf_cons, failOf_cons, hstep]
    | ok uniqueID =>
      cases h2 : (createCloudEndpoint env uniqueID).2 with
      | error e =>
        obtain ⟨r, hr⟩ := createCloudEndpoint_no_raise env hwf uniqueID
        rw [h2] at hr
        cases hr
      | ok rc =>
        cases rc with
        | err m =>
          have hstep : haltStep env i = .badEndpoint m := by simp [haltStep, h1, h2]
          simp only [haltLoop, h1, h2]
          rw [ih S F hndr hSr hFr]
          simp [stepTrace, h1, h2, successOf_cons, failOf_cons, hstep]
        | ok endpoint =>
          cases h3 : env.getPublicIpFromInstance uniqueID with
          | err m =>
            have hstep : haltStep env i = .badPublicIP m := by simp [haltStep, h1, h2, h3]
            simp only [haltLoop, h1, h2, h3]
            rw [ih S F hndr hSr hFr]
            simp [stepTrace, h1, h2, h3, successOf_cons, failOf_cons, hstep]
          | ok publicIP =>
            cases h4 : endpoint.stopVM uniqueID publicIP with
            | ok v =>
              have hstep : haltStep env i = .stopOK := by simp [haltStep, h1, h2, h3, h4]
              have hk : hasKey S i = false := hS i (List.mem_cons_self i rest)
              have hds : dictSet S i true = S ++ [(i, true)] := dictSet_fresh S i true hk
              have hS2 : ∀ j ∈ rest, hasKey (dictSet S i true) j = false := by
                intro j hj
                have hne : (i == j) = false := by
                  simp only [beq_eq_false_iff_ne, ne_eq]
                  intro h
                  exact hir (h ▸ hj)
                rw [hds, hasKey_append_single, hSr j hj, hne]
                rfl
              simp only [haltLoop, h1, h2, h3, h4]
              rw [ih (dictSet S i true) F hndr hS2 hFr]
              simp [stepTrace, h1, h2, h3, h4, successOf_cons, failOf_cons, hstep, hds]
            | err m =>
              have hstep : haltStep env i = .stopFailed m := by simp [haltStep, h1, h2, h3, h4]
              have hk : hasKey F i = false := hF i (List.mem_cons_self i rest)
              have hdf : dictSet F i m = F ++ [(i, m)] := dictSet_fresh F i m hk
              have hF2 : ∀ j ∈ rest, hasKey (dictSet F i m) j = false := by
                intro j hj
                have hne : (i == j) = false := by
                  simp only [beq_eq_false_iff_ne, ne_eq]
                  intro h
                  exact hir (h ▸ hj)
                rw [hdf, hasKey_append_single, hFr j hj, hne]
                rfl
              simp only [haltLoop, h1, h2, h3, h4]
              rw [ih S (dictSet F i m) hndr hSr hF2]
              simp [stepTrace, h1, h2, h3, h4, successOf_cons, failOf_cons, hstep, hdf]

lemma haltLoop_no_raise (env : Env) (hwf : WellFormedEndpoints env) :
    ∀ (l : List Int) (S : List (Int × Bool)) (F : List (Int × String)),
      ∃ s f, (haltLoop env l S F).2 = .ok (.ok (.haltRes s f)) := by
  intro l
  induction l with
  | nil => intro S F; exact ⟨S, F, rfl⟩
  | cons i rest ih =>
    intro S F
    cases h1 : env.getUniqueID i with
    | err m => simpa [haltLoop, h1] using ih S F
    | ok u =>
      cases h2 : (createCloudEndpoint env u).2 with
      | error e =>
        obtain ⟨r, hr⟩ := createCloudEndpoint_no_raise env hwf u
        rw [h2] at hr
        cases hr
      | ok rc =>
        cases rc with
        | err m => simpa [haltLoop, h1, h2] using ih S F
        | ok endpoint =>
          cases h3 : env.getPublicIpFromInstance u with
          | err m => simpa [haltLoop, h1, h2, h3] using ih S F
          | ok p =>
            cases h4 : endpoint.stopVM u p with
            | ok v => simpa [haltLoop, h1, h2, h3, h4] using ih (dictSet S i true) F
            | err m => simpa [haltLoop, h1, h2, h3, h4] using ih S (dictSet F i m)

lemma notMem_ce_trace (env : Env) (u : String) (e : Event)
    (hshape : (∀ x, e ≠ Event.getEndpointFromInstance x) ∧
      (∀ s ep, e ≠ Event.getVMImageConfig s ep) ∧ e ≠ Event.getCEObject) :
    e ∉ (createCloudEndpoint env u).1 := by
  intro hmem
  rcases createCloudEndpoint_trace env u e hmem with h | ⟨s, ep, h⟩ | h
  · exact hshape.1 u h
  · exact hshape.2.1 s ep h
  · exact hshape.2.2 h

lemma stepTrace_recordDBHalt_mem (env : Env) (i j l' : Int) :
    Event.recordDBHalt j l' ∈ stepTrace env i ↔
      j = i ∧ l' = 0 ∧ haltStep env i = .stopOK := by
  cases h1 : env.getUniqueID i with
  | err m => simp [stepTrace, haltStep, h1]
  | ok u =>
    have htc : Event.recordDBHalt j l' ∉ (createCloudEndpoint env u).1 :=
      notMem_ce_trace env u _ ⟨fun x h => Event.noConfusion h,
        fun s ep h => Event.noConfusion h, fun h => Event.noConfusion h⟩
    cases h2 : (createCloudEndpoint env u).2 with
    | error e => simp [stepTrace, haltStep, h1, h2, htc]
    | ok rc =>
      cases rc with
      | err m => simp [stepTrace, haltStep, h1, h2, htc]
      | ok endpoint =>
        cases h3 : env.getPublicIpFromInstance u with
        | err m => simp [stepTrace, haltStep, h1, h2, h3, htc]
        | ok p =>
          cases h4 : endpoint.stopVM u p with
          | ok v => simp [stepTrace, haltStep, h1, h2, h3, h4, htc]
          | err m => simp [stepTrace, haltStep, h1, h2, h3, h4, htc]

lemma stepTrace_no_addPeriodicTask (env : Env) (i : Int) (n : Int) :
    Event.addPeriodicTask n ∉ stepTrace env i := by
  cases h1 : env.getUniqueID i with
  | err m => simp [stepTrace, h1]
  | ok u =>
    have htc2 : Event.addPeriodicTask n ∉ (createCloudEndpoint env u).1 :=
      notMem_ce_trace env u _ ⟨fun x h => Event.noConfusion h,
        fun s ep h => Event.noConfusion h, fun h => Event.noConfusion h⟩
    cases h2 : (createCloudEndpoint env u).2 with
    | error e => simp [stepTrace, h1, h2, htc2]
    | ok rc =>
      cases rc with
      | err m => simp [stepTrace, h1, h2, htc2]
      | ok endpoint =>
        cases h3 : env.getPublicIpFromInstance u with
        | err m => simp [stepTrace, h1, h2, h3, htc2]
        | ok p =>
          cases h4 : endpoint.stopVM u p with
          | ok v => simp [stepTrace, h1, h2, h3, h4, htc2]
          | err m => simp [stepTrace, h1, h2, h3, h4, htc2]

lemma stepTrace_mutations (env : Env) (i : Int) :
    ∀ e ∈ stepTrace env i, e.isMutation = true →
      (∃ u p, e = Event.stopVM u p) ∨ e = Event.recordDBHalt i 0 := by
  intro e he hm
  cases h1 : env.getUniqueID i with
  | err m =>
    simp [stepTrace, h1] at he
    rcases he with h | h <;> subst h <;> simp [Event.isMutation] at hm
  | ok u =>
    have htc : ∀ e2 ∈ (createCloudEndpoint env u).1, e2.isMutation = false := by
      intro e2 he2
      rcases createCloudEndpoint_trace env u e2 he2 with h | ⟨s, ep, h⟩ | h <;>
        subst h <;> rfl
    cases h2 : (createCloudEndpoint env u).2 with
    | error e3 =>
      simp [stepTrace, h1, h2] at he
      rcases he with h | h
      · subst h; simp [Event.isMutation] at hm
      · rw [htc e h] at hm; cases hm
    | ok rc =>
      cases rc with
      | err m =>
        simp [stepTrace, h1, h2] at he
        rcases he with h | h | h
        · subst h; simp [Event.isMutation] at hm
        · rw [htc e h] at hm; cases hm
        · subst h; simp [Event.isMutation] at hm
      | ok endpoint =>
        cases h3 : env.getPublicIpFromInstance u with
        | err m =>
          simp [stepTrace, h1, h2, h3] at he
          rcases he with h | h | h | h
          · subst h; simp [Event.isMutation] at hm
          · rw [htc e h] at hm; cases hm
          · subst h; simp [Event.isMutation] at hm
          · subst h; simp [Event.isMutation] at hm
        | ok p =>
          cases h4 : endpoint.stopVM u p with
          | ok v =>
            simp [stepTrace, h1, h2, h3, h4] at he
            rcases he with h | h | h | h | h
            · subst h; simp [Event.isMutation] at hm
            · rw [htc e h] at hm; cases hm
            · subst h; simp [Event.isMutation] at hm
            · subst h; exact Or.inl ⟨u, p, rfl⟩
            · subst h; exact Or.inr rfl
          | err m =>
            simp [stepTrace, h1, h2, h3, h4] at he
            rcases he with h | h | h | h
            · subst h; simp [Event.isMutation] at hm
            · rw [htc e h] at hm; cases hm
            · subst h; simp [Event.isMutation] at hm
            · subst h; exact Or.inl ⟨u, p, rfl⟩

lemma mem_successOf (env : Env) (l : List Int) (j : Int) (b : Bool) :
    (j, b) ∈ successOf env l ↔ j ∈ l ∧ haltStep env j = .stopOK ∧ b = true := by
  simp only [successOf, List.mem_map, List.mem_filter, decide_eq_true_eq]
  constructor
  · rintro ⟨a, ⟨hal, hstep⟩, heq⟩
    obtain ⟨h1, h2⟩ := Prod.mk.injEq .. ▸ heq
    exact ⟨h1 ▸ hal, h1 ▸ hstep, h2.symm⟩
  · rintro ⟨hj, hs, hb⟩
    exact ⟨j, ⟨hj, hs⟩, by rw [hb]⟩

lemma mem_failOf (env : Env) (l : List Int) (j : Int) (m : String) :
    (j, m) ∈ failOf env l ↔ j ∈ l ∧ haltStep env j = .stopFailed m := by
  simp only [failOf, List.mem_filterMap]
  constructor
  · rintro ⟨a, ha, hmatch⟩
    cases hs : haltStep env a <;> rw [hs] at hmatch <;> simp at hmatch
    obtain ⟨h1, h2⟩ := hmatch
    exact ⟨h1 ▸ ha, by rw [← h1, hs, h2]⟩
  · rintro ⟨hj, hs⟩
    exact ⟨j, hj, by rw [hs]⟩

lemma mem_haltTrace_of_mem_stepTrace (env : Env) (hwf : WellFormedEndpoints env)
    (l : List Int) (hnd : l.Nodup) (i : Int) (hi : i ∈ l) (e : Event)
    (he : e ∈ stepTrace env i) : e ∈ (haltInstances env l).1 := by
  have hspec := haltLoop_spec env hwf l [] [] hnd (by intro j _; rfl) (by intro j _; rfl)
  unfold haltInstances
  rw [hspec]
  exact List.mem_flatten.mpr ⟨stepTrace env i, List.mem_map_of_mem _ hi, he⟩

lemma wellFormed_of_base_endpoint (env : Env)
    (h : ∀ u, env.getEndpointFromInstance u = .ok "LCG.Site.org::ce.site.org") :
    WellFormedEndpoints env := by
  intro u v hv
  rw [h u] at hv
  injection hv with hv
  subst hv
  exact ⟨"LCG.Site.org", "ce.site.org", by decide⟩

/-- C1 (amended).  In haltInstances, a failure at a per-instance step before
the backend stop call — resolving the backend handle, resolving the endpoint
and constructing the gateway client, or resolving the public address — causes
that instance to be skipped with only an error log entry: contrary to the
claim as stated, such an instance is NOT recorded in the failed map (only a
failure of the backend stop call itself is recorded there).  No failure
prevents the remaining instances from being processed: the first conjunct
characterises the whole batch result instance by instance, each instance's
membership in the Successful and Failed dicts being a function of that
instance's own collaborator results alone. -/
theorem haltInstances_pre_stop_failures_skipped (env : Env)
    (hwf : WellFormedEndpoints env) (vmList : List Int) (hnd : vmList.Nodup)
    (i : Int) (hi : i ∈ vmList) :
    (haltInstances env vmList).2 =
      .ok (.ok (.haltRes (successOf env vmList) (failOf env vmList))) ∧
    (∀ m, env.getUniqueID i = .err m →
      (∀ b, (i, b) ∉ successOf env vmList) ∧ (∀ m2, (i, m2) ∉ failOf env vmList) ∧
      Event.logError ("haltInstances: on getUniqueID call: " ++ m) ∈
        (haltInstances env vmList).1) ∧
    (∀ u m, env.getUniqueID i = .ok u →
      (createCloudEndpoint env u).2 = Except.ok (.err m) →
      (∀ b, (i, b) ∉ successOf env vmList) ∧ (∀ m2, (i, m2) ∉ failOf env vmList) ∧
      Event.logError ("haltInstances: on createCloudEndpoint call: " ++ m) ∈
        (haltInstances env vmList).1) ∧
    (∀ u ep m, env.getUniqueID i = .ok u →
      (createCloudEndpoint env u).2 = Except.ok (.ok ep) →
      env.getPublicIpFromInstance u = .err m →
      (∀ b, (i, b) ∉ successOf env vmList) ∧ (∀ m2, (i, m2) ∉ failOf env vmList) ∧
      Event.logError "haltInstances: can not get publicIP" ∈
        (haltInstances env vmList).1) ∧
    (∀ m, haltStep env i = .stopFailed m → (i, m) ∈ failOf env vmList) := by
  have hspec := haltLoop_spec env hwf vmList [] [] hnd
    (fun j _ => rfl) (fun j _ => rfl)
  refine ⟨?_, ?_, ?_, ?_, ?_⟩
  · show (haltLoop env vmList [] []).2 = _
    rw [hspec]
    simp
  · intro m h1
    have hstep : haltStep env i = .badUniqueID m := by simp [haltStep, h1]
    refine ⟨?_, ?_, ?_⟩
    · intro b hb
      rcases (mem_successOf env vmList i b).mp hb with ⟨_, hs, _⟩
      rw [hstep] at hs
      exact StepOutcome.noConfusion hs
    · intro m2 hb
      rcases (mem_failOf env vmList i m2).mp hb with ⟨_, hs⟩
      rw [hstep] at hs
      exact StepOutcome.noConfusion hs
    · exact mem_haltTrace_of_mem_stepTrace env hwf vmList hnd i hi _
        (by simp [stepTrace, h1])
  · intro u m h1 h2
    have hstep : haltStep env i = .badEndpoint m := by simp [haltStep, h1, h2]
    refine ⟨?_, ?_, ?_⟩
    · intro b hb
      rcases (mem_successOf env vmList i b).mp hb with ⟨_, hs, _⟩
      rw [hstep] at hs
      exact StepOutcome.noConfusion hs
    · intro m2 hb
      rcases (mem_failOf env vmList i m2).mp hb with ⟨_, hs⟩
      rw [hstep] at hs
      exact StepOutcome.noConfusion hs
    · exact mem_haltTrace_of_mem_stepTrace env hwf vmList hnd i hi _
        (by simp [stepTrace, h1, h2])
  · intro u ep m h1 h2 h3
    have hstep : haltStep env i = .badPublicIP m := by simp [haltStep, h1, h2, h3]
    refine ⟨?_, ?_, ?_⟩
    · intro b hb
      rcases (mem_successOf env vmList i b).mp hb with ⟨_, hs, _⟩
      rw [hstep] at hs
      exact StepOutcome.noConfusion hs
    · intro m2 hb
      rcases (mem_failOf env vmList i m2).mp hb with ⟨_, hs⟩
      rw [hstep] at hs
      exact StepOutcome.noConfusion hs
    · exact mem_haltTrace_of_mem_stepTrace env hwf vmList hnd i hi _
        (by simp [stepTrace, h1, h2, h3])
  · intro m hs
    exact (mem_failOf env vmList i m).mpr ⟨hi, hs⟩

/-- C1 counterexample to the claim as stated.  On the oracle envC1, resolving
the backend handle of instance 1 fails, yet the Failed map of the batch
result is empty: the failing instance is skipped without being recorded in
the failed map with a reason.  Instance 2 is still processed and succeeds. -/
theorem haltInstances_failed_map_counterexample :
    envC1.getUniqueID 1 = .err "unknown instance" ∧
    (haltInstances envC1 [1, 2]).2 = .ok (.ok (.haltRes [(2, true)] [])) :=
  ⟨rfl, rfl⟩

/-- C1 witness: the amended theorem applied to envC1 and the batch 1, 2,
where step 1 fails for instance 1. -/
theorem haltInstances_pre_stop_failures_skipped_witness :
    WellFormedEndpoints envC1 ∧ ([1, 2] : List Int).Nodup ∧ (1 : Int) ∈ ([1, 2] : List Int) ∧
    envC1.getUniqueID 1 = .err "unknown instance" ∧
    ((1 : Int), "reason") ∉ failOf envC1 [1, 2] ∧
    Event.logError ("haltInstances: on getUniqueID call: " ++ "unknown instance") ∈
      (haltInstances envC1 [1, 2]).1 := by
  have hwf : WellFormedEndpoints envC1 := wellFormed_of_base_endpoint envC1 fun u => rfl
  have h := haltInstances_pre_stop_failures_skipped envC1 hwf [1, 2] (by decide)
    1 (by decide)
  exact ⟨hwf, by decide, by decide, rfl, (h.2.1 "unknown instance" rfl).2.1 "reason",
    (h.2.1 "unknown instance" rfl).2.2⟩

/-- C2.  Under the collaborator contract that stored site-endpoint
descriptors are well formed, haltInstances returns, for every input batch and
every behaviour of the backend (including stop calls that all fail), a
protocol-level S_OK carrying the Successful and Failed partial-result dicts:
no backend failure during halt dispatch propagates as a fatal error of the
batch operation. -/
theorem haltInstances_protocol_success (env : Env) (hwf : WellFormedEndpoints env)
    (vmList : List Int) :
    ∃ s f, (haltInstances env vmList).2 = .ok (.ok (.haltRes s f)) :=
  haltLoop_no_raise env hwf vmList [] []

/-- C2 witness: on the oracle envStopFail every backend stop call fails, yet
the batch operation returns a protocol-level success. -/
theorem haltInstances_protocol_success_witness :
    WellFormedEndpoints envStopFail ∧
    (∃ s f, (haltInstances envStopFail [1, 2]).2 = .ok (.ok (.haltRes s f))) := by
  have hwf : WellFormedEndpoints envStopFail :=
    wellFormed_of_base_endpoint envStopFail fun u => rfl
  exact ⟨hwf, haltInstances_protocol_success envStopFail hwf [1, 2]⟩

/-- C3.  For an instance of a halt batch that reaches the backend stop call:
on stop success the instance is recorded halted (recordDBHalt with status
zero appears in the trace) and is added to the Successful dict; on stop
failure the instance is added to the Failed dict with the backend's reported
message and no recordDBHalt call is made for it.  The last conjunct shows
that recordDBHalt calls for succeeded instances and the stop commands
themselves are the only state-mutating calls haltInstances ever makes, so a
stop-failed instance's status is left untouched. -/
theorem haltInstances_stop_call_outcome (env : Env) (hwf : WellFormedEndpoints env)
    (vmList : List Int) (hnd : vmList.Nodup) (i : Int) (hi : i ∈ vmList) :
    (haltStep env i = .stopOK →
       Event.recordDBHalt i 0 ∈ (haltInstances env vmList).1 ∧
       (i, true) ∈ successOf env vmList ∧
       (haltInstances env vmList).2 =
         .ok (.ok (.haltRes (successOf env vmList) (failOf env vmList)))) ∧
    (∀ m, haltStep env i = .stopFailed m →
       (i, m) ∈ failOf env vmList ∧
       ∀ l', Event.recordDBHalt i l' ∉ (haltInstances env vmList).1) ∧
    (∀ e ∈ (haltInstances env vmList).1, e.isMutation = true →
       (∃ u p, e = Event.stopVM u p) ∨
       ∃ j, e = Event.recordDBHalt j 0 ∧ haltStep env j = .stopOK) := by
  have hspec := haltLoop_spec env hwf vmList [] [] hnd
    (fun j _ => rfl) (fun j _ => rfl)
  have htr : (haltInstances env vmList).1 = (vmList.map (stepTrace env)).flatten := by
    show (haltLoop env vmList [] []).1 = _
    rw [hspec]
  refine ⟨?_, ?_, ?_⟩
  · intro hs
    refine ⟨?_, ?_, ?_⟩
    · exact mem_haltTrace_of_mem_stepTrace env hwf vmList hnd i hi _
        ((stepTrace_recordDBHalt_mem env i i 0).mpr ⟨rfl, rfl, hs⟩)
    · exact (mem_successOf env vmList i true).mpr ⟨hi, hs, rfl⟩
    · show (haltLoop env vmList [] []).2 = _
      rw [hspec]
      simp
  · intro m hs
    refine ⟨(mem_failOf env vmList i m).mpr ⟨hi, hs⟩, ?_⟩
    intro l' hmem
    rw [htr] at hmem
    rcases List.mem_flatten.mp hmem with ⟨t, ht, hmem2⟩
    rcases List.mem_map.mp ht with ⟨j, _, rfl⟩
    rcases (stepTrace_recordDBHalt_mem env j i l').mp hmem2 with ⟨hij, _, hjs⟩
    rw [← hij] at hjs
    rw [hs] at hjs
    exact StepOutcome.noConfusion hjs
  · intro e he hm
    rw [htr] at he
    rcases List.mem_flatten.mp he with ⟨t, ht, he2⟩
    rcases List.mem_map.mp ht with ⟨j, _, rfl⟩
    rcases stepTrace_mutations env j e he2 hm with h | h
    · exact Or.inl h
    · refine Or.inr ⟨j, h, ?_⟩
      have := (stepTrace_recordDBHalt_mem env j j 0).mp (h ▸ he2)
      exact this.2.2

/-- C3 witness: on the oracle envC3 the stop call succeeds for instance 1
(recordDBHalt is issued and the instance enters Successful) and fails for
instance 2 (which enters Failed with the backend message). -/
theorem haltInstances_stop_call_outcome_witness :
    WellFormedEndpoints envC3 ∧ ([1, 2] : List Int).Nodup ∧
    haltStep envC3 1 = .stopOK ∧ haltStep envC3 2 = .stopFailed "backend refused" ∧
    Event.recordDBHalt 1 0 ∈ (haltInstances envC3 [1, 2]).1 ∧
    ((1 : Int), true) ∈ successOf envC3 [1, 2] ∧
    ((2 : Int), "backend refused") ∈ failOf envC3 [1, 2] := by
  have hwf : WellFormedEndpoints envC3 :=
    wellFormed_of_base_endpoint envC3 fun u => rfl
  have h1 := haltInstances_stop_call_outcome envC3 hwf [1, 2] (by decide) 1 (by decide)
  have h2 := haltInstances_stop_call_outcome envC3 hwf [1, 2] (by decide) 2 (by decide)
  exact ⟨hwf, by decide, rfl, rfl, (h1.1 rfl).1, (h1.1 rfl).2.1,
    (h2.2.1 "backend refused" rfl).1⟩

lemma haltLoop_no_addPeriodicTask (env : Env) (n : Int) :
    ∀ (l : List Int) (S : List (Int × Bool)) (F : List (Int × String)),
      Event.addPeriodicTask n ∉ (haltLoop env l S F).1 := by
  intro l
  induction l with
  | nil => intro S F h; simp [haltLoop] at h
  | cons i rest ih =>
    intro S F h
    cases h1 : env.getUniqueID i with
    | err m =>
      simp [haltLoop, h1] at h
      exact ih S F h
    | ok u =>
      have htc2 : Event.addPeriodicTask n ∉ (createCloudEndpoint env u).1 :=
        notMem_ce_trace env u _ ⟨fun x hx => Event.noConfusion hx,
          fun s ep hx => Event.noConfusion hx, fun hx => Event.noConfusion hx⟩
      cases h2 : (createCloudEndpoint env u).2 with
      | error e =>
        simp [haltLoop, h1, h2] at h
        exact htc2 h
      | ok rc =>
        cases rc with
        | err m =>
          simp [haltLoop, h1, h2] at h
          rcases h with h | h
          · exact htc2 h
          · exact ih S F h
        | ok endpoint =>
          cases h3 : env.getPublicIpFromInstance u with
          | err m =>
            simp [haltLoop, h1, h2, h3] at h
            rcases h with h | h
            · exact htc2 h
            · exact ih S F h
          | ok p =>
            cases h4 : endpoint.stopVM u p with
            | ok v =>
              simp [haltLoop, h1, h2, h3, h4] at h
              rcases h with h | h
              · exact htc2 h
              · exact ih (dictSet S i true) F h
            | err m =>
              simp [haltLoop, h1, h2, h3, h4] at h
              rcases h with h | h
              · exact htc2 h
              · exact ih S (dictSet F i m) h

/-- C6 (amended).  When the stalled-instance query fails, the reconciliation
cycle aborts without raising and without invoking the halt dispatcher,
returning a bare S_ERROR; contrary to the claim as stated, the cycle itself
emits no log entry on this path (re-running on the next cadence is provided
by the scheduler registration made at initialization, not by this
function). -/
theorem checkStalledInstances_store_failure (env : Env) (m : String)
    (h : env.declareStalledInstances = .err m) :
    checkStalledInstances env = ([Event.declareStalledInstances], .ok (.err "")) ∧
    (checkStalledInstances env).1.filter Event.isLog = [] ∧
    ∀ u p, Event.stopVM u p ∉ (checkStalledInstances env).1 := by
  have hc : checkStalledInstances env = ([Event.declareStalledInstances], .ok (.err "")) := by
    simp [checkStalledInstances, h]
  refine ⟨hc, ?_, ?_⟩
  · rw [hc]
    rfl
  · intro u p hmem
    rw [hc] at hmem
    simp at hmem

/-- C6 counterexample to the claim as stated.  On the oracle envStoreDown the
stalled-instance query fails; the cycle aborts without invoking the halt
dispatcher, but its trace contains no log entry at all, refuting the part of
the claim that says the failure is logged. -/
theorem checkStalled_no_log_counterexample :
    envStoreDown.declareStalledInstances = .err "store unavailable" ∧
    checkStalledInstances envStoreDown = ([Event.declareStalledInstances], .ok (.err "")) ∧
    (checkStalledInstances envStoreDown).1.filter Event.isLog = [] :=
  ⟨rfl, rfl, rfl⟩

/-- C6 witness: the amended theorem applied to envStoreDown. -/
theorem checkStalledInstances_store_failure_witness :
    envStoreDown.declareStalledInstances = .err "store unavailable" ∧
    (checkStalledInstances envStoreDown).1.filter Event.isLog = [] ∧
    Event.stopVM "vm-1" "192.0.2.7" ∉ (checkStalledInstances envStoreDown).1 := by
  have h := checkStalledInstances_store_failure envStoreDown "store unavailable" rfl
  exact ⟨rfl, h.2.1, h.2.2 "vm-1" "192.0.2.7"⟩

/-- C7.  At process initialization the reconciliation task is executed once
before it is registered for periodic execution: the initialization trace is
exactly one checkStalledInstances run followed by the addPeriodicTask
registration at the fixed 60 * 15 second interval, and no registration event
occurs inside the reconciliation run itself. -/
theorem initialize_check_before_schedule (env : Env) (hwf : WellFormedEndpoints env)
    (hc : env.connected = true) :
    (initializeVirtualMachineManagerHandler env).1 =
      (checkStalledInstances env).1 ++ [Event.addPeriodicTask (60 * 15)] ∧
    (∀ n, Event.addPeriodicTask n ∉ (checkStalledInstances env).1) ∧
    (initializeVirtualMachineManagerHandler env).2 = .ok (.ok .unit) := by
  have hnr : ∃ r, (checkStalledInstances env).2 = Except.ok r := by
    cases hd : env.declareStalledInstances with
    | err m => exact ⟨.err "", by simp [checkStalledInstances, hd]⟩
    | ok lst =>
      obtain ⟨s, f, hsf⟩ := haltLoop_no_raise env hwf lst [] []
      refine ⟨.ok (.haltRes s f), ?_⟩
      simp only [checkStalledInstances, hd, haltInstances]
      exact hsf
  obtain ⟨r, hr⟩ := hnr
  have happ : ∀ n, Event.addPeriodicTask n ∉ (checkStalledInstances env).1 := by
    intro n hmem
    cases hd : env.declareStalledInstances with
    | err m => simp [checkStalledInstances, hd] at hmem
    | ok lst =>
      simp [checkStalledInstances, hd, haltInstances] at hmem
      exact haltLoop_no_addPeriodicTask env n lst [] [] hmem
  exact ⟨by simp [initializeVirtualMachineManagerHandler, hr, hc], happ,
    by simp [initializeVirtualMachineManagerHandler, hr, hc]⟩

/-- C7 witness: the theorem applied to the connected oracle envBase. -/
theorem initialize_check_before_schedule_witness :
    WellFormedEndpoints envBase ∧ envBase.connected = true ∧
    (initializeVirtualMachineManagerHandler envBase).1 =
      (checkStalledInstances envBase).1 ++ [Event.addPeriodicTask (60 * 15)] ∧
    (initializeVirtualMachineManagerHandler envBase).2 = .ok (.ok .unit) := by
  have hwf : WellFormedEndpoints envBase :=
    wellFormed_of_base_endpoint envBase fun u => rfl
  have h := initialize_check_before_schedule envBase hwf rfl
  exact ⟨hwf, rfl, h.1, h.2.2⟩

/-- C8.  Each capability-restricted inbound operation — declareInstanceRunning
(reportRunning), instanceIDHeartBeat (reportHeartbeat),
declareInstancesStopping (requestStop) and declareInstanceHalting
(reportHalting) — returns its Unauthorized S_ERROR immediately when the
caller lacks the required property, with no state-mutating call in its trace
(declareInstanceRunning emits one informational log line before the check;
the other three emit nothing at all). -/
theorem unauthorized_requests_no_side_effects :
    (∀ (env : Env) (props : List String) (uniqueID privateIP remote : String),
       props.contains "VM_RPC_OPERATION" = false →
       (export_declareInstanceRunning env props uniqueID privateIP remote).2 =
         .ok (.err "Unauthorized declareInstanceRunning RPC") ∧
       (export_declareInstanceRunning env props uniqueID privateIP remote).1.filter
         Event.isMutation = []) ∧
    (∀ (env : Env) (props : List String) (uniqueID : String)
       (load jobs transferredFiles transferredBytes : Int) (uptime : Option Int),
       props.contains "VM_RPC_OPERATION" = false →
       export_instanceIDHeartBeat env props uniqueID load jobs transferredFiles
           transferredBytes uptime =
         ([], .ok (.err "Unauthorized declareInstanceIDHeartBeat RPC"))) ∧
    (∀ (env : Env) (props : List String) (l : List Int),
       props.contains "VM_WEB_OPERATION" = false →
       export_declareInstancesStopping env props l =
         ([], .ok (.err "Unauthorized VM Stopping"))) ∧
    (∀ (env : Env) (props : List String) (uniqueID : String) (load : Int),
       props.contains "VM_RPC_OPERATION" = false →
       export_declareInstanceHalting env props uniqueID load =
         ([], .ok (.err "Unauthorized declareInstanceHalting RPC"))) := by
  refine ⟨?_, ?_, ?_, ?_⟩
  · intro env props u p r h
    have h2 : "VM_RPC_OPERATION" ∉ props := by simpa using h
    refine ⟨by simp [export_declareInstanceRunning, h2], ?_⟩
    simp [export_declareInstanceRunning, h2, Event.isMutation]
  · intro env props u load j tf tb up h
    have h2 : "VM_RPC_OPERATION" ∉ props := by simpa using h
    simp [export_instanceIDHeartBeat, h2]
  · intro env props l h
    have h2 : "VM_WEB_OPERATION" ∉ props := by simpa using h
    simp [export_declareInstancesStopping, h2]
  · intro env props u load h
    have h2 : "VM_RPC_OPERATION" ∉ props := by simpa using h
    simp [export_declareInstanceHalting, h2]

/-- C8 witness: the four operations invoked with an empty credential set. -/
theorem unauthorized_requests_no_side_effects_witness :
    (([] : List String).contains "VM_RPC_OPERATION" = false) ∧
    (([] : List String).contains "VM_WEB_OPERATION" = false) ∧
    (export_declareInstanceRunning envBase [] "vm-1" "10.0.0.5" "198.51.100.3").2 =
      .ok (.err "Unauthorized declareInstanceRunning RPC") ∧
    export_instanceIDHeartBeat envBase [] "vm-1" 0 0 0 0 (some 0) =
      ([], .ok (.err "Unauthorized declareInstanceIDHeartBeat RPC")) ∧
    export_declareInstancesStopping envBase [] [1] =
      ([], .ok (.err "Unauthorized VM Stopping")) ∧
    export_declareInstanceHalting envBase [] "vm-1" 0 =
      ([], .ok (.err "Unauthorized declareInstanceHalting RPC")) := by
  have h := unauthorized_requests_no_side_effects
  exact ⟨rfl, rfl, (h.1 envBase [] "vm-1" "10.0.0.5" "198.51.100.3" rfl).1,
    h.2.1 envBase [] "vm-1" 0 0 0 0 (some 0) rfl,
    h.2.2.1 envBase [] [1] rfl,
    h.2.2.2 envBase [] "vm-1" 0 rfl⟩

/-- C9.  An authorized explicit stop request with an empty instance list does
not return a structured result: the loop body never runs, the result variable
is never bound, and the method raises the unbound-local NameError instead of
returning an S_OK or S_ERROR value. -/
theorem declareInstancesStopping_empty_list_raises (env : Env) (props : List String)
    (h : props.contains "VM_WEB_OPERATION" = true) :
    export_declareInstancesStopping env props [] = ([], .error .nameError) := by
  have h2 : "VM_WEB_OPERATION" ∈ props := by simpa using h
  simp [export_declareInstancesStopping, h2, stoppingLoop]

/-- C9 witness: the theorem applied to an authorized caller on envBase. -/
theorem declareInstancesStopping_empty_list_raises_witness :
    (["VM_WEB_OPERATION"].contains "VM_WEB_OPERATION" = true) ∧
    export_declareInstancesStopping envBase ["VM_WEB_OPERATION"] [] =
      ([], .error .nameError) :=
  ⟨rfl, declareInstancesStopping_empty_list_raises envBase ["VM_WEB_OPERATION"] rfl⟩

/-- C5.  When the status-change call of export_declareInstanceHalting is
rejected with a message carrying the Halted-arrow marker — the store's
invalid-transition message for an instance already in Halted — the handler
does not return that failure: it proceeds with exactly the same continuation
(declareInstanceHaltingTail, the instance-ID resolution and halt dispatch)
that a successful fresh Halted declaration takes, so repeated halt requests
on an already-halted instance behave as if the instance were freshly declared
Halted. -/
theorem declareInstanceHalting_halted_idempotent (env : Env) (props : List String)
    (uniqueID : String) (load : Int) (ev : String)
    (hauth : props.contains "VM_RPC_OPERATION" = true)
    (hep : env.getEndpointFromInstance uniqueID = .ok ev) :
    (∀ m, env.declareInstanceHalting uniqueID load = .err m →
       strIn "Halted ->" m = true →
       (export_declareInstanceHalting env props uniqueID load).2 =
         (declareInstanceHaltingTail env uniqueID).2) ∧
    (∀ v, env.declareInstanceHalting uniqueID load = .ok v →
       (export_declareInstanceHalting env props uniqueID load).2 =
         (declareInstanceHaltingTail env uniqueID).2) := by
  have hauth2 : "VM_RPC_OPERATION" ∈ props := by simpa using hauth
  constructor
  · intro m hdb hm
    simp [export_declareInstanceHalting, hauth2, hep, hdb, hm]
  · intro v hdb
    simp [export_declareInstanceHalting, hauth2, hep, hdb]

/-- C5 witness: on envC5 the store rejects the halt transition with the
modelled Halted-to-Running invalid-transition message, and the handler result
is the continuation result rather than that failure. -/
theorem declareInstanceHalting_halted_idempotent_witness :
    (["VM_RPC_OPERATION"].contains "VM_RPC_OPERATION" = true) ∧
    envC5.declareInstanceHalting "vm-1" 0 =
      .err (invalidTransitionMessage "Halted" "Running") ∧
    strIn "Halted ->" (invalidTransitionMessage "Halted" "Running") = true ∧
    (export_declareInstanceHalting envC5 ["VM_RPC_OPERATION"] "vm-1" 0).2 =
      (declareInstanceHaltingTail envC5 "vm-1").2 := by
  have h := declareInstanceHalting_halted_idempotent envC5 ["VM_RPC_OPERATION"]
    "vm-1" 0 "LCG.Site.org::ce.site.org" (by decide) rfl
  exact ⟨by decide, rfl, by decide, h.1 _ rfl (by decide)⟩

/-- C4.  One iteration of the export_declareInstancesStopping loop routes the
instance by its current status: a Stalled instance goes directly through the
halting path (the iteration outcome is exactly the outcome of
export_declareInstanceHalting and its trace ends with that call's trace); a
New instance is recorded Halted immediately via recordDBHalt with no backend
call of any kind in the iteration (no stop command and no gateway-client
construction); an instance in any other status receives the
declareInstanceStopping transition. -/
theorem declareInstancesStopping_routes_by_status (env : Env) (props : List String)
    (i : Int) :
    (∀ u ev, env.getInstanceStatus i = .ok "Stalled" →
       env.getUniqueID i = .ok u → env.getEndpointFromInstance u = .ok ev →
       (stoppingStep env props i).2 =
         (match (export_declareInstanceHalting env props u 0).2 with
          | .error e => StepRes.raised e
          | .ok r => StepRes.next r) ∧
       (∃ t0, (stoppingStep env props i).1 =
          t0 ++ (export_declareInstanceHalting env props u 0).1)) ∧
    (env.getInstanceStatus i = .ok "New" →
       (stoppingStep env props i).2 = .next (env.recordDBHalt i 0) ∧
       Event.recordDBHalt i 0 ∈ (stoppingStep env props i).1 ∧
       (∀ u p, Event.stopVM u p ∉ (stoppingStep env props i).1) ∧
       Event.getCEObject ∉ (stoppingStep env props i).1) ∧
    (∀ s, env.getInstanceStatus i = .ok s → s ≠ "Stalled" → s ≠ "New" →
       (stoppingStep env props i).2 = .next (env.declareInstanceStopping i) ∧
       Event.declareInstanceStopping i ∈ (stoppingStep env props i).1) := by
  refine ⟨?_, ?_, ?_⟩
  · intro u ev hs hu hep
    constructor
    · cases hcall : (export_declareInstanceHalting env props u 0).2 with
      | error e => simp [stoppingStep, hs, hu, hep, hcall]
      | ok r => simp [stoppingStep, hs, hu, hep, hcall]
    · refine ⟨[Event.logInfo ("Stopping DIRAC instanceID: " ++ toString i),
        Event.getInstanceStatus i,
        Event.logInfo ("Stopping DIRAC instanceID: " ++ toString i ++
          ", current state " ++ "Stalled"),
        Event.getUniqueID i, Event.getEndpointFromInstance u], ?_⟩
      simp [stoppingStep, hs, hu, hep]
  · intro hs
    refine ⟨by simp [stoppingStep, hs], ?_, ?_, ?_⟩
    · cases hr : env.recordDBHalt i 0 <;> simp [stoppingStep, hs, logResult, hr]
    · intro u p hmem
      cases hr : env.recordDBHalt i 0 <;>
        simp [stoppingStep, hs, logResult, hr] at hmem
    · intro hmem
      cases hr : env.recordDBHalt i 0 <;>
        simp [stoppingStep, hs, logResult, hr] at hmem
  · intro s hs hns hnn
    constructor
    · simp [stoppingStep, hs, hns, hnn]
    · cases hr : env.declareInstanceStopping i <;>
        simp [stoppingStep, hs, hns, hnn, logResult, hr]

/-- C4 witness: on envC4 (instance 1 Stalled, instance 2 New, instance 3
Running), the three routes of the theorem instantiated with a fully
authorized caller. -/
theorem declareInstancesStopping_routes_by_status_witness :
    envC4.getInstanceStatus 1 = .ok "Stalled" ∧
    envC4.getInstanceStatus 2 = .ok "New" ∧
    envC4.getInstanceStatus 3 = .ok "Running" ∧
    (stoppingStep envC4 ["VM_WEB_OPERATION", "VM_RPC_OPERATION"] 1).2 =
      (match (export_declareInstanceHalting envC4 ["VM_WEB_OPERATION", "VM_RPC_OPERATION"]
          "vm-1" 0).2 with
       | .error e => StepRes.raised e
       | .ok r => StepRes.next r) ∧
    (stoppingStep envC4 ["VM_WEB_OPERATION", "VM_RPC_OPERATION"] 2).2 =
      .next (envC4.recordDBHalt 2 0) ∧
    Event.recordDBHalt 2 0 ∈
      (stoppingStep envC4 ["VM_WEB_OPERATION", "VM_RPC_OPERATION"] 2).1 ∧
    Event.stopVM "vm-2" "192.0.2.7" ∉
      (stoppingStep envC4 ["VM_WEB_OPERATION", "VM_RPC_OPERATION"] 2).1 ∧
    (stoppingStep envC4 ["VM_WEB_OPERATION", "VM_RPC_OPERATION"] 3).2 =
      .next (envC4.declareInstanceStopping 3) := by
  have h1 := (declareInstancesStopping_routes_by_status envC4
    ["VM_WEB_OPERATION", "VM_RPC_OPERATION"] 1).1 "vm-1" "LCG.Site.org::ce.site.org"
    rfl rfl rfl
  have h2 := (declareInstancesStopping_routes_by_status envC4
    ["VM_WEB_OPERATION", "VM_RPC_OPERATION"] 2).2.1 rfl
  have h3 := (declareInstancesStopping_routes_by_status envC4
    ["VM_WEB_OPERATION", "VM_RPC_OPERATION"] 3).2.2 "Running" rfl
    (by decide) (by decide)
  exact ⟨rfl, rfl, rfl, h1.1, h2.1, h2.2.1, h2.2.2.1 "vm-2" "192.0.2.7", h3.1⟩

lemma stoppingLoop_early (env : Env) (props : List String) (i : Int) (m : String)
    (hm : env.getInstanceStatus i = .err m) :
    ∀ (pre : List Int) (post : List Int) (acc : Option (DResult Value)),
      (∀ j ∈ pre, env.getInstanceStatus j = .ok "Running") →
      (stoppingLoop env props (pre ++ i :: post) acc).2 = .ok (.err m) ∧
      (∀ j ∈ pre, Event.declareInstanceStopping j ∈
         (stoppingLoop env props (pre ++ i :: post) acc).1) ∧
      (∀ k, Event.getInstanceStatus k ∈
         (stoppingLoop env props (pre ++ i :: post) acc).1 → k ∈ pre ∨ k = i) := by
  intro pre
  induction pre with
  | nil =>
    intro post acc _
    have hstep : (stoppingStep env props i).2 = .earlyReturn (.err m) := by
      simp [stoppingStep, hm]
    refine ⟨by simp [stoppingLoop, hstep], by simp, ?_⟩
    intro k hk
    simp only [List.nil_append] at hk
    rw [show (stoppingLoop env props (i :: post) acc).1 = (stoppingStep env props i).1 by
      simp [stoppingLoop, hstep]] at hk
    simp [stoppingStep, hm] at hk
    exact Or.inr hk
  | cons j pre' ih =>
    intro post acc hpre
    have hj : env.getInstanceStatus j = .ok "Running" :=
      hpre j (List.mem_cons_self j pre')
    have hpre' : ∀ j2 ∈ pre', env.getInstanceStatus j2 = .ok "Running" :=
      fun j2 hj2 => hpre j2 (List.mem_cons_of_mem _ hj2)
    have hstep : (stoppingStep env props j).2 = .next (env.declareInstanceStopping j) := by
      simp [stoppingStep, hj]
    have hloop : stoppingLoop env props ((j :: pre') ++ i :: post) acc =
        ((stoppingStep env props j).1 ++
           (stoppingLoop env props (pre' ++ i :: post)
             (some (env.declareInstanceStopping j))).1,
         (stoppingLoop env props (pre' ++ i :: post)
           (some (env.declareInstanceStopping j))).2) := by
      simp [stoppingLoop, hstep]
    have hrec := ih post (some (env.declareInstanceStopping j)) hpre'
    refine ⟨?_, ?_, ?_⟩
    · rw [hloop]
      exact hrec.1
    · intro j2 hj2
      rw [hloop]
      rcases List.mem_cons.mp hj2 with h | h
      · subst h
        refine List.mem_append_left _ ?_
        cases hr : env.declareInstanceStopping j2 <;>
          simp [stoppingStep, hpre j2 (List.mem_cons_self j2 pre'), logResult, hr]
      · exact List.mem_append_right _ (hrec.2.1 j2 h)
    · intro k hk
      rw [hloop] at hk
      rcases List.mem_append.mp hk with h | h
      · cases hr : env.declareInstanceStopping j <;>
          simp [stoppingStep, hj, logResult, hr] at h
        · exact Or.inl (h ▸ List.mem_cons_self j pre')
        · exact Or.inl (h ▸ List.mem_cons_self j pre')
      · rcases hrec.2.2 k h with h2 | h2
        · exact Or.inl (List.mem_cons_of_mem _ h2)
        · exact Or.inr h2

lemma stoppingLoop_last (env : Env) (props : List String) :
    ∀ (init : List Int) (lastI : Int) (acc : Option (DResult Value)),
      (∀ j ∈ init, env.getInstanceStatus j = .ok "Running") →
      env.getInstanceStatus lastI = .ok "Running" →
      (stoppingLoop env props (init ++ [lastI]) acc).2 =
        .ok (env.declareInstanceStopping lastI) := by
  intro init
  induction init with
  | nil =>
    intro lastI acc _ hl
    have hstep : (stoppingStep env props lastI).2 =
        .next (env.declareInstanceStopping lastI) := by
      simp [stoppingStep, hl]
    simp [stoppingLoop, hstep]
  | cons j init' ih =>
    intro lastI acc hpre hl
    have hstep : (stoppingStep env props j).2 = .next (env.declareInstanceStopping j) := by
      simp [stoppingStep, hpre j (List.mem_cons_self j init')]
    have hloop : (stoppingLoop env props ((j :: init') ++ [lastI]) acc).2 =
        (stoppingLoop env props (init' ++ [lastI])
          (some (env.declareInstanceStopping j))).2 := by
      simp [stoppingLoop, hstep]
    rw [hloop]
    exact ih lastI (some (env.declareInstanceStopping j))
      (fun j2 hj2 => hpre j2 (List.mem_cons_of_mem _ hj2)) hl

/-- C10.  The explicit stop request is not failure-isolated per item.  First
part: when the status lookup of one instance fails, the whole operation
returns that error immediately — the preceding instances have already
received their declareInstanceStopping transition (the state-mutating call is
in the trace) and the following instances are never touched (no status lookup
for them appears in the trace).  Second part: when every item is processed,
the returned value is the DB result for the last instance only, whatever the
results for the earlier instances were (the oracle is arbitrary, so earlier
declareInstanceStopping failures are invisible in the returned value). -/
theorem declareInstancesStopping_not_failure_isolated :
    (∀ (env : Env) (props : List String) (pre : List Int) (i : Int)
       (post : List Int) (m : String),
       props.contains "VM_WEB_OPERATION" = true →
       (∀ j ∈ pre, env.getInstanceStatus j = .ok "Running") →
       env.getInstanceStatus i = .err m →
       (export_declareInstancesStopping env props (pre ++ i :: post)).2 = .ok (.err m) ∧
       (∀ j ∈ pre, Event.declareInstanceStopping j ∈
          (export_declareInstancesStopping env props (pre ++ i :: post)).1) ∧
       (∀ k ∈ post, k ∉ pre → k ≠ i → Event.getInstanceStatus k ∉
          (export_declareInstancesStopping env props (pre ++ i :: post)).1)) ∧
    (∀ (env : Env) (props : List String) (init : List Int) (lastI : Int),
       props.contains "VM_WEB_OPERATION" = true →
       (∀ j ∈ init, env.getInstanceStatus j = .ok "Running") →
       env.getInstanceStatus lastI = .ok "Running" →
       (export_declareInstancesStopping env props (init ++ [lastI])).2 =
         .ok (env.declareInstanceStopping lastI)) := by
  constructor
  · intro env props pre i post m hauth hpre hi
    have hauth2 : "VM_WEB_OPERATION" ∈ props := by simpa using hauth
    have hred : export_declareInstancesStopping env props (pre ++ i :: post) =
        stoppingLoop env props (pre ++ i :: post) none := by
      simp [export_declareInstancesStopping, hauth2]
    have h := stoppingLoop_early env props i m hi pre post none hpre
    rw [hred]
    refine ⟨h.1, h.2.1, ?_⟩
    intro k _ hknp hkni hmem
    rcases h.2.2 k hmem with hc | hc
    · exact hknp hc
    · exact hkni hc
  · intro env props init lastI hauth hpre hl
    have hauth2 : "VM_WEB_OPERATION" ∈ props := by simpa using hauth
    have hred : export_declareInstancesStopping env props (init ++ [lastI]) =
        stoppingLoop env props (init ++ [lastI]) none := by
      simp [export_declareInstancesStopping, hauth2]
    rw [hred]
    exact stoppingLoop_last env props init lastI none hpre hl

/-- C10 witness: on envC10 (status lookup fails for instance 3, Running
otherwise), the batch 1, 3, 4 returns the lookup error after transitioning
instance 1 and never touching instance 4, and the batch 1, 2 returns the
result for instance 2 only. -/
theorem declareInstancesStopping_not_failure_isolated_witness :
    envC10.getInstanceStatus 3 = .err "lookup failed" ∧
    (export_declareInstancesStopping envC10 ["VM_WEB_OPERATION"] [1, 3, 4]).2 =
      .ok (.err "lookup failed") ∧
    Event.declareInstanceStopping 1 ∈
      (export_declareInstancesStopping envC10 ["VM_WEB_OPERATION"] [1, 3, 4]).1 ∧
    Event.getInstanceStatus 4 ∉
      (export_declareInstancesStopping envC10 ["VM_WEB_OPERATION"] [1, 3, 4]).1 ∧
    (export_declareInstancesStopping envC10 ["VM_WEB_OPERATION"] [1, 2]).2 =
      .ok (envC10.declareInstanceStopping 2) := by
  have ha := declareInstancesStopping_not_failure_isolated.1 envC10
    ["VM_WEB_OPERATION"] [1] 3 [4] "lookup failed" (by decide) (by decide) rfl
  have hb := declareInstancesStopping_not_failure_isolated.2 envC10
    ["VM_WEB_OPERATION"] [1] 2 (by decide) (by decide) rfl
  exact ⟨rfl, ha.1, ha.2.1 1 (by decide), ha.2.2 4 (by decide) (by decide) (by decide), hb⟩
